import Mathlib

/-!
Verification of the portfolio backend (Flask app `app.py`, database module
`db.py`, AI helper `ai_helper.py`) as a shallow embedding in Lean.

Strings are modelled as Lean `String` / `List Char`; Python `str.strip`,
`str.upper`, slicing, and substring tests are re-implemented over char lists
so that everything is executable and kernel-reducible.  The database is
modelled as in-memory lists of rows; HTTP handlers become pure functions from
a request body and a database state to a status code, a response body and a
new state.  The external LLM is an oracle: `create_sql_query` takes the raw
model response (an `Option String`, `none` when every model call failed) and
the chat route takes a `ChatPipeline` value describing which outcome the
pipeline reached.
-/

set_option maxRecDepth 8192

namespace Portfolio

/-! ## String helpers (Python semantics over `List Char`) -/

/-- Python `s.upper()` on the characters of a string (ASCII case mapping). -/
def upperL (s : String) : List Char := s.data.map Char.toUpper

/-- Python `str.strip()` on a char list: drop leading and trailing whitespace. -/
def stripL (cs : List Char) : List Char :=
  ((cs.dropWhile Char.isWhitespace).reverse.dropWhile Char.isWhitespace).reverse

/-- Python `s.strip()` as a `String` operation. -/
def pyStrip (s : String) : String := ⟨stripL s.data⟩

/-- Python slicing `s[:n]`. -/
def pyTake (n : Nat) (s : String) : String := ⟨s.data.take n⟩

/-- Python substring test `needle in hay` (here `hay` is already a char list). -/
def containsSub (needle : String) (hay : List Char) : Bool :=
  hay.tails.any fun t => needle.data.isPrefixOf t

/-! ## `ai_helper.create_sql_query`: response cleanup and validation

The Python function builds a prompt from the user question, calls the model,
then post-processes the raw response text:
1. `re.sub(r'```sql\n?', '', response, flags=re.IGNORECASE)` – remove fences;
2. `re.sub(r'```\n?', '', response)` – remove bare fences;
3. `re.sub(r'^(SQL|Query):\s*', '', response, flags=re.IGNORECASE)`;
4. `re.search(r'(SELECT.*?)(?:;|$)', response, re.IGNORECASE | re.DOTALL)`,
   falling back to the first stripped line starting with `SELECT`, falling
   back to `response.strip().rstrip(';')`;
5. `' '.join(sql_query.split())` – collapse whitespace.
The scanning functions below use an explicit fuel argument (the length of the
input) in place of Python's left-to-right regex scan.  -/

/-- The backquote character of the markdown code fences. -/
def fenceChar : Char := Char.ofNat 96

/-- Drop one optional leading newline (the `\n?` of the fence patterns). -/
def dropOptNl : List Char → List Char
  | '\n' :: rest => rest
  | cs => cs

/-- Left-to-right removal of every occurrence of ```` ```sql\n? ```` (case-insensitive). -/
def stripFencesSql : Nat → List Char → List Char
  | 0, cs => cs
  | _ + 1, [] => []
  | n + 1, c1 :: rest =>
    match rest with
    | c2 :: c3 :: c4 :: c5 :: c6 :: rest2 =>
      if c1 = fenceChar ∧ c2 = fenceChar ∧ c3 = fenceChar ∧
          c4.toLower = 's' ∧ c5.toLower = 'q' ∧ c6.toLower = 'l' then
        stripFencesSql n (dropOptNl rest2)
      else c1 :: stripFencesSql n rest
    | _ => c1 :: stripFencesSql n rest

/-- Left-to-right removal of every occurrence of ```` ```\n? ````. -/
def stripFences : Nat → List Char → List Char
  | 0, cs => cs
  | _ + 1, [] => []
  | n + 1, c1 :: rest =>
    match rest with
    | c2 :: c3 :: rest2 =>
      if c1 = fenceChar ∧ c2 = fenceChar ∧ c3 = fenceChar then
        stripFences n (dropOptNl rest2)
      else c1 :: stripFences n rest
    | _ => c1 :: stripFences n rest

/-- Remove a leading `SQL:` or `Query:` (case-insensitive) plus following whitespace. -/
def stripSqlLabel (cs : List Char) : List Char :=
  let low := cs.map Char.toLower
  if "sql:".data.isPrefixOf low then (cs.drop 4).dropWhile Char.isWhitespace
  else if "query:".data.isPrefixOf low then (cs.drop 6).dropWhile Char.isWhitespace
  else cs

/-- Leftmost case-insensitive occurrence of `SELECT`; the match extends
(non-greedily, `.` matching newlines) up to the first `;` or the end. -/
def findSelect : Nat → List Char → Option (List Char)
  | 0, _ => none
  | _ + 1, [] => none
  | n + 1, c :: rest =>
    if "select".data.isPrefixOf ((c :: rest).map Char.toLower) then
      some ((c :: rest).takeWhile fun ch => ch ≠ ';')
    else findSelect n rest

/-- Python `s.rstrip(';')`. -/
def rstripSemis (cs : List Char) : List Char :=
  (cs.reverse.dropWhile fun ch => ch = ';').reverse

/-- Fallback of the extraction: the first stripped line that starts with
`SELECT` (case-insensitive), as `line.rstrip(';').strip()`. -/
def firstSelectLine (lines : List (List Char)) : Option (List Char) :=
  lines.findSome? fun line =>
    let l := stripL line
    if "select".data.isPrefixOf (l.map Char.toLower) then
      some (stripL (rstripSemis l))
    else none

/-- Python `' '.join(s.split())`: collapse all whitespace runs to single spaces. -/
def wsJoin (cs : List Char) : List Char :=
  List.intercalate [' '] ((cs.splitOnP Char.isWhitespace).filter fun w => ¬ w.isEmpty)

/-- The response post-processing of `create_sql_query` (steps 1–5 above). -/
def extract_sql (response : String) : String :=
  let cs := response.data
  let cs := stripFencesSql cs.length cs
  let cs := stripFences cs.length cs
  let cs := stripSqlLabel cs
  let sql :=
    match findSelect cs.length cs with
    | some m => stripL m
    | none =>
      match firstSelectLine (cs.splitOn '\n') with
      | some l => l
      | none => rstripSemis (stripL cs)
  ⟨wsJoin sql⟩

/-- The denylist of `create_sql_query` (`dangerous` in the source). -/
def dangerous : List String :=
  ["DROP", "DELETE", "UPDATE", "INSERT", "ALTER", "CREATE", "TRUNCATE"]

/-- The validation tail of `ai_helper.create_sql_query`: the cleaned response
must start with `SELECT`, contain `FROM`, and avoid every denylisted keyword
(all checks on the uppercased text); otherwise `None`.  The argument is the
raw model response, `none` when every model call failed. -/
def create_sql_query (response : Option String) : Option String :=
  match response with
  | none => none
  | some response =>
    let sql_query := extract_sql response
    if ¬ ("SELECT".data.isPrefixOf (upperL sql_query)) then none
    else if ¬ (containsSub "FROM" (upperL sql_query)) then none
    else if dangerous.any (fun word => containsSub word (upperL sql_query)) then none
    else some sql_query

/-! ## Database model (`db.py` and the row shapes used by `app.py`)

A project row as selected by `GET /api/projects`
(`SELECT id, title, description, tech_stack, github_url`); `github_url` is a
nullable column.  Contacts carry the three inserted text fields.  The state
keeps the two tables plus the next auto-increment ids (`AUTOINCREMENT`
rowids, also the `lastrowid` returned on insert). -/

structure Project where
  id : Nat
  title : String
  description : String
  tech_stack : String
  github_url : Option String
deriving DecidableEq

structure Contact where
  id : Nat
  name : String
  email : String
  message : String
deriving DecidableEq

structure DBState where
  projects : List Project
  contacts : List Contact
  nextProjectId : Nat
  nextContactId : Nat
deriving DecidableEq

/-- Columns of the `projects` table created by `db.py` `init_db`
(`CREATE TABLE IF NOT EXISTS projects (id, title, description, tech_stack,
github_url, created_at)`). -/
def init_db_projects_columns : List String :=
  ["id", "title", "description", "tech_stack", "github_url", "created_at"]

/-- Columns selected by `ai_helper.fetch_projects`
(`SELECT id, title, description, tech_stack, project_date, created_at`). -/
def fetch_projects_selected_columns : List String :=
  ["id", "title", "description", "tech_stack", "project_date", "created_at"]

/-- A `SELECT` succeeds only when every selected column exists in the table. -/
def fetch_projects_succeeds : Bool :=
  fetch_projects_selected_columns.all fun c => init_db_projects_columns.contains c

/-- Environment variables read by `db.py` and `app.py`. -/
structure Env where
  database_url : Option String
  database_path : Option String
deriving DecidableEq

/-- A database connection target. -/
inductive DBBackend where
  | sqlite (path : String)
  | postgres (url : String)
deriving DecidableEq

/-- The `db.py` `get_db_connection`: `sqlite3.connect(DATABASE_PATH)` with
`DATABASE_PATH = os.getenv('DATABASE_PATH', 'portfolio.db')`.  The function
body never consults `DATABASE_URL`. -/
def get_db_connection (env : Env) : DBBackend :=
  DBBackend.sqlite (env.database_path.getD "portfolio.db")

def isSqlite : DBBackend → Bool
  | .sqlite _ => true
  | .postgres _ => false

/-- SQL parameter placeholder style chosen by the route handlers in `app.py`:
`%s` when `DATABASE_URL` is set (the PostgreSQL branch), `?` otherwise. -/
inductive ParamStyle where
  | percentS
  | questionMark
deriving DecidableEq

def app_param_style (env : Env) : ParamStyle :=
  if env.database_url.isSome then .percentS else .questionMark

/-! ## Route handlers (`app.py`) -/

/-- Python falsy-or-blank test used on required JSON fields:
`not data.get(field) or not data.get(field).strip()`. -/
def requiredMissing (o : Option String) : Bool :=
  match o with
  | none => true
  | some s => s = "" ∨ pyStrip s = ""

/-- Insertion into a list sorted by descending `id` (for `ORDER BY id DESC`). -/
def insertByIdDesc (p : Project) : List Project → List Project
  | [] => [p]
  | q :: rest => if q.id ≤ p.id then p :: q :: rest else q :: insertByIdDesc p rest

/-- The `ORDER BY id DESC` of `GET /api/projects`. -/
def orderByIdDesc : List Project → List Project
  | [] => []
  | p :: rest => insertByIdDesc p (orderByIdDesc rest)

/-- Handler `get_projects`: returns 200 and all project rows ordered by
descending id. -/
def get_projects (s : DBState) : Nat × List Project :=
  (200, orderByIdDesc s.projects)

/-- JSON body of `POST /api/projects`; absent keys are `none`. -/
structure ProjectBody where
  title : Option String
  description : Option String
  tech_stack : Option String
  github_url : Option String
deriving DecidableEq

inductive CreateResp where
  | missingField (field : String)
  | invalid (msg : String)
  | created (project_id : Nat)
deriving DecidableEq

/-- Handler `create_project` (`POST /api/projects`): required-field checks,
strip, length validation, `github_url` normalisation (`.strip() or None`,
modelled as `none` when the stripped string is empty) together with the
`if github_url and not github_url.startswith('http')` check, then the insert
returning the new row id. -/
def create_project (body : ProjectBody) (s : DBState) : (Nat × CreateResp) × DBState :=
  if requiredMissing body.title then ((400, .missingField "title"), s)
  else if requiredMissing body.description then ((400, .missingField "description"), s)
  else if requiredMissing body.tech_stack then ((400, .missingField "tech_stack"), s)
  else
    let title := pyStrip (body.title.getD "")
    let description := pyStrip (body.description.getD "")
    let tech_stack := pyStrip (body.tech_stack.getD "")
    let github_raw := pyStrip (body.github_url.getD "")
    if title.length > 200 then ((400, .invalid "Title too long"), s)
    else if description.length > 2000 then ((400, .invalid "Description too long"), s)
    else if tech_stack.length > 300 then ((400, .invalid "Tech stack too long"), s)
    else if github_raw ≠ "" ∧ ¬ ("http".data.isPrefixOf github_raw.data) then
      ((400, .invalid "Invalid GitHub URL"), s)
    else
      let github_url : Option String := if github_raw = "" then none else some github_raw
      let project : Project := ⟨s.nextProjectId, title, description, tech_stack, github_url⟩
      ((201, .created s.nextProjectId),
       { s with projects := s.projects ++ [project], nextProjectId := s.nextProjectId + 1 })

inductive DeleteResp where
  | notFound
  | deleted (project_id : Nat)
deriving DecidableEq

/-- Handler `delete_project` (`DELETE /api/projects/<id>`): existence check
(`SELECT id ... WHERE id = ?`, 404 when absent), then
`DELETE FROM projects WHERE id = ?`. -/
def delete_project (project_id : Nat) (s : DBState) : (Nat × DeleteResp) × DBState :=
  if ¬ (s.projects.any fun p => p.id == project_id) then ((404, .notFound), s)
  else
    ((200, .deleted project_id),
     { s with projects := s.projects.filter fun p => ¬ (p.id = project_id) })

/-- JSON body of `POST /api/contact`. -/
structure ContactBody where
  name : Option String
  email : Option String
  message : Option String
deriving DecidableEq

inductive ContactResp where
  | missingField (field : String)
  | invalid (msg : String)
  | created (contact_id : Nat)
deriving DecidableEq

/-- Handler `submit_contact` (`POST /api/contact`). -/
def submit_contact (body : ContactBody) (s : DBState) : (Nat × ContactResp) × DBState :=
  if requiredMissing body.name then ((400, .missingField "name"), s)
  else if requiredMissing body.email then ((400, .missingField "email"), s)
  else if requiredMissing body.message then ((400, .missingField "message"), s)
  else
    let name := pyStrip (body.name.getD "")
    let email := pyStrip (body.email.getD "")
    let message := pyStrip (body.message.getD "")
    if name.length > 100 ∨ email.length > 100 ∨ message.length > 1000 then
      ((400, .invalid "Input too long"), s)
    else if ¬ (email.data.contains '@') then ((400, .invalid "Invalid email"), s)
    else
      let contact : Contact := ⟨s.nextContactId, name, email, message⟩
      ((201, .created s.nextContactId),
       { s with contacts := s.contacts ++ [contact], nextContactId := s.nextContactId + 1 })

/-- Default of `os.getenv('ADMIN_PASSWORD', 'default_password_change_me')`. -/
def default_admin_password : String := "default_password_change_me"

inductive AdminResp where
  | missingPassword
  | success (token : String)
  | invalidPassword
deriving DecidableEq

/-- Handler `verify_admin` (`POST /api/admin/verify`).  `sha256_hexdigest`
stands for `hashlib.sha256(...).hexdigest()` (a 64-hex-char digest of its
input) and `now` for `int(time.time())`; the token is the first 32 characters
of the digest of `f"{correct_password}_{int(time.time())}"`. -/
def verify_admin (admin_password_env : Option String) (sha256_hexdigest : String → String)
    (now : Nat) (body_password : Option String) : Nat × AdminResp :=
  if body_password.getD "" = "" then (400, .missingPassword)
  else
    let submitted_password := pyStrip (body_password.getD "")
    let correct_password := admin_password_env.getD default_admin_password
    if submitted_password = correct_password then
      (200, .success (pyTake 32 (sha256_hexdigest (correct_password ++ "_" ++ toString now))))
    else (401, .invalidPassword)

/-! ## The chat route (`POST /api/chat`)

The handler first attempts `from ai_helper import ...` (an `ImportError` is
answered with 200 before the body is even read), then validates the question,
then runs the pipeline: `create_sql_query`, `cursor.execute(sql_query)`,
`format_sql_results`.  `ChatPipeline` enumerates the outcomes the handler
distinguishes: import failure, no SQL generated, SQL execution error, any
other raised exception (the bare `except Exception` arm), or success with a
formatted answer. -/

inductive ChatPipeline where
  | importError
  | sqlNone
  | execError (sql : String)
  | success (sql : String) (formatted : String)
  | otherError
deriving DecidableEq

inductive ChatBody where
  | err (msg : String)
  | ans (answer : String) (sql_query : Option String)
deriving DecidableEq

def chat_import_error_answer : String :=
  "AI chat is not configured. Please set HUGGINGFACE_API_KEY."

def chat_no_sql_answer : String :=
  "I can answer questions about Konstantin\x27s portfolio projects. Try asking about specific projects, technologies used, or the number of projects."

def chat_sql_error_answer : String :=
  "I had trouble with that question. Try: \x27How many projects?\x27 or \x27List all projects\x27"

def chat_generic_error_answer : String :=
  "Sorry, I encountered an error. Please try again."

/-- Handler `chat` (`POST /api/chat`).  The `from ai_helper import ...` is the
first statement of the `try` block, so an `ImportError` is answered (with 200)
before the question is validated. -/
def chat (question : Option String) (p : ChatPipeline) : Nat × ChatBody :=
  if p = ChatPipeline.importError then (200, .ans chat_import_error_answer none)
  else if requiredMissing question then (400, .err "Question is required")
  else if (pyStrip (question.getD "")).length > 500 then (400, .err "Question too long")
  else
    match p with
    | .importError => (200, .ans chat_import_error_answer none)
    | .sqlNone => (200, .ans chat_no_sql_answer none)
    | .execError sql => (200, .ans chat_sql_error_answer (some sql))
    | .success sql formatted => (200, .ans formatted (some sql))
    | .otherError => (200, .ans chat_generic_error_answer none)

/-- A pipeline outcome that is a failure (everything except success). -/
def isChatFailure : ChatPipeline → Bool
  | .success _ _ => false
  | _ => true

/-- The canned answer the handler returns for each failure outcome. -/
def chatFailureAnswer : ChatPipeline → String
  | .importError => chat_import_error_answer
  | .sqlNone => chat_no_sql_answer
  | .execError _ => chat_sql_error_answer
  | .otherError => chat_generic_error_answer
  | .success _ _ => ""

/-- The `sql_query` field accompanying each failure answer. -/
def chatFailureSqlField : ChatPipeline → Option String
  | .execError sql => some sql
  | _ => none

/-! ## The API as a transition system (for the lifecycle invariant) -/

inductive ApiOp where
  | getProjects
  | createProject (body : ProjectBody)
  | deleteProject (project_id : Nat)
  | submitContact (body : ContactBody)
  | verifyAdmin (password : Option String)
  | chatOp (question : Option String) (pipeline : ChatPipeline)
  | health
deriving DecidableEq

/-- Effect of each API route on the database state.  `GET /api/projects`,
`/api/admin/verify`, `/api/chat` and `/api/health` only read (the chat route
executes only SQL accepted by `create_sql_query`, hence a `SELECT`). -/
def applyOp (op : ApiOp) (s : DBState) : DBState :=
  match op with
  | .createProject body => (create_project body s).2
  | .deleteProject project_id => (delete_project project_id s).2
  | .submitContact body => (submit_contact body s).2
  | _ => s

/-! ## Concrete sample data (used by the witnesses below) -/

/-- A 201-character title that violates the 200-character bound. -/
def oversizedTitle : String := ⟨List.replicate 201 'a'⟩

def sampleProject : Project := ⟨1, "Portfolio", "A personal site", "Python, Flask", none⟩

def sampleState : DBState := ⟨[sampleProject], [], 2, 1⟩

def emptyState : DBState := ⟨[], [], 1, 1⟩

/-- A stand-in for `hashlib.sha256(...).hexdigest()`: some fixed 64-character
digest (only the output length matters for the properties below). -/
def dummy_hexdigest : String → String := fun _ => ⟨List.replicate 64 'a'⟩

/-! ## Helper lemmas -/

theorem containsSub_iff (needle : String) (hay : List Char) :
    containsSub needle hay = true ↔ needle.data <:+: hay := by
  unfold containsSub
  rw [List.any_eq_true]
  constructor
  · rintro ⟨t, ht, hp⟩
    rw [List.mem_tails] at ht
    rw [List.isPrefixOf_iff_prefix] at hp
    exact List.infix_iff_prefix_suffix.mpr ⟨t, hp, ht⟩
  · intro h
    obtain ⟨t, hp, ht⟩ := List.infix_iff_prefix_suffix.mp h
    exact ⟨t, (List.mem_tails _ _).mpr ht, List.isPrefixOf_iff_prefix.mpr hp⟩

theorem mem_insertByIdDesc {p a : Project} {l : List Project} :
    a ∈ insertByIdDesc p l ↔ a = p ∨ a ∈ l := by
  induction l with
  | nil => simp [insertByIdDesc]
  | cons q rest ih =>
    simp only [insertByIdDesc]
    split
    · simp [List.mem_cons]
    · simp only [List.mem_cons, ih]
      tauto

theorem mem_orderByIdDesc {a : Project} {l : List Project} :
    a ∈ orderByIdDesc l ↔ a ∈ l := by
  induction l with
  | nil => simp [orderByIdDesc]
  | cons p rest ih => simp [orderByIdDesc, mem_insertByIdDesc, ih]

theorem length_filter_erase {l : List Project} {pid : Nat}
    (hn : (l.map Project.id).Nodup) (hm : ∃ p ∈ l, p.id = pid) :
    (l.filter fun p => ¬ (p.id = pid)).length + 1 = l.length := by
  induction l with
  | nil => simp at hm
  | cons q rest ih =>
    rw [List.map_cons, List.nodup_cons] at hn
    obtain ⟨hq, hrest⟩ := hn
    by_cases hqe : q.id = pid
    · have hfilter : rest.filter (fun p => ¬ (p.id = pid)) = rest := by
        apply List.filter_eq_self.mpr
        intro p hp
        simp only [decide_eq_true_eq]
        intro hpe
        have hmem : p.id ∈ rest.map Project.id := List.mem_map_of_mem Project.id hp
        rw [hpe, ← hqe] at hmem
        exact hq hmem
      rw [List.filter_cons, if_neg (by simp [hqe]), hfilter, List.length_cons]
    · obtain ⟨p, hp, hpe⟩ := hm
      rcases List.mem_cons.mp hp with rfl | hp'
      · exact absurd hpe hqe
      · have ih' := ih hrest ⟨p, hp', hpe⟩
        rw [List.filter_cons, if_pos (by simpa using hqe)]
        simp only [List.length_cons]
        omega

theorem pyTake_length (n : Nat) (s : String) : (pyTake n s).length = min n s.length :=
  List.length_take n s.data

/-! ## Claims -/

/-- Claim C1: for every POST /api/chat request with a valid question, whenever
the pipeline fails (SQL generation returns no query, executing the generated
SQL raises, the AI helper module cannot be imported, or any other exception),
the endpoint returns HTTP 200 with the corresponding canned answer string in
the `answer` field — no pipeline failure surfaces as a non-200 response. -/
theorem chat_pipeline_failure_returns_200 (question : Option String) (p : ChatPipeline)
    (hq : requiredMissing question = false)
    (hlen : (pyStrip (question.getD "")).length ≤ 500)
    (hf : isChatFailure p = true) :
    chat question p = (200, ChatBody.ans (chatFailureAnswer p) (chatFailureSqlField p)) := by
  have hgt : ¬ (pyStrip (question.getD "")).length > 500 := by omega
  cases p with
  | importError => simp [chat, chatFailureAnswer, chatFailureSqlField]
  | sqlNone => simp [chat, hq, hgt, chatFailureAnswer, chatFailureSqlField]
  | execError sql => simp [chat, hq, hgt, chatFailureAnswer, chatFailureSqlField]
  | success sql formatted => simp [isChatFailure] at hf
  | otherError => simp [chat, hq, hgt, chatFailureAnswer, chatFailureSqlField]

theorem chat_pipeline_failure_returns_200_witness :
    requiredMissing (some "How many projects?") = false ∧
    (pyStrip ((some "How many projects?" : Option String).getD "")).length ≤ 500 ∧
    isChatFailure ChatPipeline.sqlNone = true ∧
    chat (some "How many projects?") ChatPipeline.sqlNone =
      (200, ChatBody.ans (chatFailureAnswer ChatPipeline.sqlNone)
        (chatFailureSqlField ChatPipeline.sqlNone)) :=
  ⟨by decide, by decide, by decide,
   chat_pipeline_failure_returns_200 (some "How many projects?") ChatPipeline.sqlNone
     (by decide) (by decide) (by decide)⟩

/-- Claim C2: whenever `create_sql_query` returns a non-`None` string, that
string starts with `SELECT` (case-insensitively), contains `FROM`, and
contains none of the mutating keywords `DROP`, `DELETE`, `UPDATE`, `INSERT`,
`ALTER`, `CREATE`, `TRUNCATE` as a substring of its uppercased form — for any
model response whatsoever (the user question only shapes the prompt). -/
theorem create_sql_query_safe (response : Option String) (sql : String)
    (h : create_sql_query response = some sql) :
    "SELECT".data <+: upperL sql ∧ "FROM".data <:+: upperL sql ∧
      ∀ word ∈ dangerous, ¬ (word.data <:+: upperL sql) := by
  match response with
  | none => simp [create_sql_query] at h
  | some r =>
    simp only [create_sql_query] at h
    split at h
    · exact absurd h (by simp)
    next h1 =>
      split at h
      · exact absurd h (by simp)
      next h2 =>
        split at h
        · exact absurd h (by simp)
        next h3 =>
          obtain rfl : extract_sql r = sql := Option.some.inj h
          refine ⟨?_, ?_, ?_⟩
          · exact List.isPrefixOf_iff_prefix.mp (Bool.of_not_eq_false (by simpa using h1))
          · exact (containsSub_iff _ _).mp (Bool.of_not_eq_false (by simpa using h2))
          · intro word hw hinf
            exact h3 (List.any_eq_true.mpr ⟨word, hw, (containsSub_iff _ _).mpr hinf⟩)

theorem create_sql_query_safe_witness :
    create_sql_query (some "SELECT * FROM projects") = some "SELECT * FROM projects" ∧
    ("SELECT".data <+: upperL "SELECT * FROM projects" ∧
     "FROM".data <:+: upperL "SELECT * FROM projects" ∧
     ∀ word ∈ dangerous, ¬ (word.data <:+: upperL "SELECT * FROM projects")) :=
  ⟨by decide,
   create_sql_query_safe (some "SELECT * FROM projects") "SELECT * FROM projects" (by decide)⟩

/-- Claim C3: the claim says `DATABASE_URL` present implies a PostgreSQL
connection.  In the code, `get_db_connection` opens
`sqlite3.connect(DATABASE_PATH)` unconditionally: every connection is SQLite
whatever the environment, even though the route handlers switch to `%s`
(PostgreSQL) placeholders exactly when `DATABASE_URL` is set. -/
theorem get_db_connection_always_sqlite (env : Env) (url : String) :
    isSqlite (get_db_connection env) = true ∧
    get_db_connection { env with database_url := some url } =
      get_db_connection { env with database_url := none } ∧
    app_param_style { env with database_url := some url } = ParamStyle.percentS :=
  ⟨rfl, rfl, rfl⟩

/-- Claim C4: the claim says the `projects` table created by `init_db` has
`project_date` and `updated_at` columns and that `fetch_projects` can read
`project_date`.  In the code, `init_db` creates neither column while
`fetch_projects` SELECTs `project_date`, so that query fails against the
schema `init_db` creates. -/
theorem init_db_schema_lacks_project_date :
    ("project_date" ∉ init_db_projects_columns) ∧
    ("updated_at" ∉ init_db_projects_columns) ∧
    ("project_date" ∈ fetch_projects_selected_columns) ∧
    fetch_projects_succeeds = false := by decide

/-- Claim C5: any POST /api/projects whose stripped title exceeds 200
characters, or description 2000, or tech_stack 300, is answered with HTTP 400
and leaves the store unchanged (no row inserted). -/
theorem create_project_rejects_oversized (body : ProjectBody) (s : DBState)
    (h : (pyStrip (body.title.getD "")).length > 200 ∨
         (pyStrip (body.description.getD "")).length > 2000 ∨
         (pyStrip (body.tech_stack.getD "")).length > 300) :
    (create_project body s).1.1 = 400 ∧ (create_project body s).2 = s := by
  simp only [create_project]
  split_ifs <;> try exact ⟨rfl, rfl⟩
  all_goals rcases h with h | h | h <;> omega

theorem create_project_rejects_oversized_witness :
    (pyStrip ((ProjectBody.mk (some oversizedTitle) (some "d") (some "t") none).title.getD "")).length > 200 ∧
    ((create_project ⟨some oversizedTitle, some "d", some "t", none⟩ emptyState).1.1 = 400 ∧
     (create_project ⟨some oversizedTitle, some "d", some "t", none⟩ emptyState).2 = emptyState) :=
  ⟨by decide,
   create_project_rejects_oversized ⟨some oversizedTitle, some "d", some "t", none⟩ emptyState
     (Or.inl (by decide))⟩

/-- Claim C6: DELETE /api/projects/{id} returns 404 and leaves the state
unchanged when no project row has the id; when one does (row ids are unique,
`id` being the primary key), it returns 200, removes exactly that row from
`projects`, and leaves `contacts` untouched. -/
theorem delete_project_spec (project_id : Nat) (s : DBState) :
    ((∀ p ∈ s.projects, p.id ≠ project_id) →
      delete_project project_id s = ((404, .notFound), s)) ∧
    ((s.projects.map Project.id).Nodup → ∀ p ∈ s.projects, p.id = project_id →
      (delete_project project_id s).1.1 = 200 ∧
      (delete_project project_id s).2.projects =
        s.projects.filter (fun q => ¬ (q.id = project_id)) ∧
      (delete_project project_id s).2.contacts = s.contacts ∧
      (delete_project project_id s).2.projects.length + 1 = s.projects.length) := by
  constructor
  · intro hall
    have hany : (s.projects.any fun p => p.id == project_id) = false := by
      rw [List.any_eq_false]
      intro p hp
      simpa using hall p hp
    simp [delete_project, hany]
  · intro hn p hp hpe
    have hany : (s.projects.any fun p => p.id == project_id) = true :=
      List.any_eq_true.mpr ⟨p, hp, by simpa using hpe⟩
    refine ⟨by simp [delete_project, hany], by simp [delete_project, hany], by simp [delete_project, hany], ?_⟩
    have hlen := length_filter_erase hn ⟨p, hp, hpe⟩
    simpa [delete_project, hany] using hlen

theorem delete_project_spec_witness :
    delete_project 2 sampleState = ((404, .notFound), sampleState) ∧
    ((delete_project 1 sampleState).1.1 = 200 ∧
     (delete_project 1 sampleState).2.projects =
       sampleState.projects.filter (fun q => ¬ (q.id = 1)) ∧
     (delete_project 1 sampleState).2.contacts = sampleState.contacts ∧
     (delete_project 1 sampleState).2.projects.length + 1 = sampleState.projects.length) :=
  ⟨(delete_project_spec 2 sampleState).1 (by decide),
   (delete_project_spec 1 sampleState).2 (by decide) sampleProject (by decide) (by decide)⟩

/-- Claim C7 counterexample: POST /api/projects with `github_url: ""` succeeds
(201, project id 1), but the subsequent GET /api/projects response contains no
project with that id whose `github_url` equals the stripped submitted value
`""` — the handler stores `None` (null), not the empty string, so the claimed
field equality fails. -/
theorem create_project_roundtrip_counterexample :
    (create_project ⟨some "a", some "b", some "c", some ""⟩ emptyState).1 =
      (201, CreateResp.created 1) ∧
    ¬ ∃ p ∈ (get_projects (create_project ⟨some "a", some "b", some "c", some ""⟩ emptyState).2).2,
        p.id = 1 ∧ p.github_url = some (pyStrip "") := by decide

/-- Claim C7 (amended): after any successful POST /api/projects (201 with
`project_id`), GET /api/projects returns a list containing a project whose id
equals that `project_id` and whose title, description and tech_stack equal the
stripped submitted values; its `github_url` equals the stripped submitted
value when that value is non-empty, and is null (`none`) otherwise. -/
theorem create_project_roundtrip (body : ProjectBody) (s : DBState) (pid : Nat)
    (h : (create_project body s).1 = (201, CreateResp.created pid)) :
    ∃ p ∈ (get_projects (create_project body s).2).2,
      p.id = pid ∧
      p.title = pyStrip (body.title.getD "") ∧
      p.description = pyStrip (body.description.getD "") ∧
      p.tech_stack = pyStrip (body.tech_stack.getD "") ∧
      p.github_url = (if pyStrip (body.github_url.getD "") = "" then none
                      else some (pyStrip (body.github_url.getD ""))) := by
  simp only [create_project, get_projects] at h ⊢
  split_ifs at h ⊢ with h1 h2 h3 h4 h5 h6 h7 h8
  all_goals simp at h
  all_goals subst h
  all_goals
    exact ⟨_, mem_orderByIdDesc.mpr (List.mem_append_right _ (List.mem_singleton_self _)),
      rfl, rfl, rfl, rfl, rfl⟩

theorem create_project_roundtrip_witness :
    (create_project ⟨some " My Site ", some "A demo", some "Python", some "https://example.com"⟩
        emptyState).1 = (201, CreateResp.created 1) ∧
    ∃ p ∈ (get_projects (create_project
        ⟨some " My Site ", some "A demo", some "Python", some "https://example.com"⟩
        emptyState).2).2,
      p.id = 1 ∧
      p.title = pyStrip " My Site " ∧
      p.description = pyStrip "A demo" ∧
      p.tech_stack = pyStrip "Python" ∧
      p.github_url = (if pyStrip "https://example.com" = "" then none
                      else some (pyStrip "https://example.com")) :=
  ⟨by decide,
   create_project_roundtrip
     ⟨some " My Site ", some "A demo", some "Python", some "https://example.com"⟩
     emptyState 1 (by decide)⟩

theorem create_project_state (body : ProjectBody) (s : DBState) :
    (create_project body s).2 = s ∨
    ∃ p, (create_project body s).2 =
      { s with projects := s.projects ++ [p], nextProjectId := s.nextProjectId + 1 } := by
  simp only [create_project]
  split_ifs
  all_goals first
  | exact Or.inl rfl
  | exact Or.inr ⟨_, rfl⟩

theorem submit_contact_state (body : ContactBody) (s : DBState) :
    (submit_contact body s).2 = s ∨
    ∃ c, (submit_contact body s).2 =
      { s with contacts := s.contacts ++ [c], nextContactId := s.nextContactId + 1 } := by
  simp only [submit_contact]
  split_ifs
  all_goals first
  | exact Or.inl rfl
  | exact Or.inr ⟨_, rfl⟩

/-- Claim C8: no API operation modifies the fields of an existing project or
contact row: every route either leaves a table unchanged, appends a single
freshly created row, or (for projects only) deletes whole rows by id. -/
theorem api_insert_only (op : ApiOp) (s : DBState) :
    ((applyOp op s).contacts = s.contacts ∨
      ∃ c, (applyOp op s).contacts = s.contacts ++ [c]) ∧
    ((applyOp op s).projects = s.projects ∨
      (∃ p, (applyOp op s).projects = s.projects ++ [p]) ∨
      ∃ pid, (applyOp op s).projects = s.projects.filter fun q => ¬ (q.id = pid)) := by
  cases op with
  | getProjects => exact ⟨Or.inl rfl, Or.inl rfl⟩
  | verifyAdmin password => exact ⟨Or.inl rfl, Or.inl rfl⟩
  | chatOp question pipeline => exact ⟨Or.inl rfl, Or.inl rfl⟩
  | health => exact ⟨Or.inl rfl, Or.inl rfl⟩
  | createProject body =>
    simp only [applyOp]
    rcases create_project_state body s with h | ⟨p, h⟩ <;> rw [h]
    · exact ⟨Or.inl rfl, Or.inl rfl⟩
    · exact ⟨Or.inl rfl, Or.inr (Or.inl ⟨p, rfl⟩)⟩
  | deleteProject project_id =>
    simp only [applyOp, delete_project]
    split_ifs <;> refine ⟨Or.inl rfl, ?_⟩
    · exact Or.inr (Or.inr ⟨project_id, rfl⟩)
    · exact Or.inl rfl
  | submitContact body =>
    simp only [applyOp]
    rcases submit_contact_state body s with h | ⟨c, h⟩ <;> rw [h]
    · exact ⟨Or.inl rfl, Or.inl rfl⟩
    · exact ⟨Or.inr ⟨c, rfl⟩, Or.inl rfl⟩

/-- Claim C9: the denylist check is a plain substring test on the uppercased
SQL, so any model response whose extracted SQL contains `created_at` is
rejected (`CREATE` occurs inside `CREATED_AT`) and `create_sql_query` returns
`None` — even though the prompt examples themselves order by `created_at`. -/
theorem create_sql_query_blocks_created_at (response : String)
    (h : "created_at".data <:+: (extract_sql response).data) :
    create_sql_query (some response) = none := by
  have hup : "CREATE".data <:+: upperL (extract_sql response) := by
    have h1 : "created_at".data.map Char.toUpper <:+:
        (extract_sql response).data.map Char.toUpper := h.map Char.toUpper
    have h2 : "created_at".data.map Char.toUpper = "CREATED_AT".data := by decide
    have h3 : "CREATE".data <+: "CREATED_AT".data := by decide
    rw [h2] at h1
    exact h3.isInfix.trans h1
  have hdang : (dangerous.any fun word =>
      containsSub word (upperL (extract_sql response))) = true :=
    List.any_eq_true.mpr ⟨"CREATE", by decide, (containsSub_iff _ _).mpr hup⟩
  simp [create_sql_query, hdang]

theorem create_sql_query_blocks_created_at_witness :
    ("created_at".data <:+:
      (extract_sql "SELECT title FROM projects ORDER BY created_at DESC LIMIT 1").data) ∧
    create_sql_query (some "SELECT title FROM projects ORDER BY created_at DESC LIMIT 1") = none :=
  ⟨by decide,
   create_sql_query_blocks_created_at
     "SELECT title FROM projects ORDER BY created_at DESC LIMIT 1" (by decide)⟩

/-- Claim C10 counterexample: with `ADMIN_PASSWORD` unset, submitting the
password `" default_password_change_me "` — which is NOT the literal
`default_password_change_me` — still yields HTTP 200, because the handler
strips the submitted password before comparing; so it is not the case that
every submitted password other than the literal gets 401. -/
theorem verify_admin_counterexample :
    (verify_admin none (fun _ => "") 0 (some " default_password_change_me ")).1 = 200 ∧
    " default_password_change_me " ≠ default_admin_password := by decide

/-- Claim C10 (amended): when `ADMIN_PASSWORD` is unset, a missing or empty
submitted password yields HTTP 400; a non-empty submitted password whose
stripped value equals `default_password_change_me` yields HTTP 200 with
success and a 32-character token; a non-empty submitted password whose
stripped value differs yields HTTP 401. -/
theorem verify_admin_spec (sha256_hexdigest : String → String) (now : Nat)
    (password : Option String)
    (hdigest : ∀ x, (sha256_hexdigest x).length = 64) :
    (password.getD "" = "" →
      verify_admin none sha256_hexdigest now password = (400, .missingPassword)) ∧
    (password.getD "" ≠ "" → pyStrip (password.getD "") = default_admin_password →
      (verify_admin none sha256_hexdigest now password).1 = 200 ∧
      ∃ token, (verify_admin none sha256_hexdigest now password).2 = AdminResp.success token ∧
        token.length = 32) ∧
    (password.getD "" ≠ "" → pyStrip (password.getD "") ≠ default_admin_password →
      verify_admin none sha256_hexdigest now password = (401, .invalidPassword)) := by
  refine ⟨?_, ?_, ?_⟩
  · intro h
    simp [verify_admin, h]
  · intro h hmatch
    have hv : verify_admin none sha256_hexdigest now password =
        (200, .success (pyTake 32 (sha256_hexdigest
          (default_admin_password ++ "_" ++ toString now)))) := by
      simp [verify_admin, h, hmatch]
    rw [hv]
    refine ⟨rfl, _, rfl, ?_⟩
    rw [pyTake_length, hdigest]
    decide
  · intro h hne
    simp [verify_admin, h, hne]

theorem verify_admin_spec_witness :
    ((some "default_password_change_me" : Option String).getD "" ≠ "") ∧
    pyStrip ((some "default_password_change_me" : Option String).getD "") =
      default_admin_password ∧
    ((verify_admin none dummy_hexdigest 0 (some "default_password_change_me")).1 = 200 ∧
     ∃ token, (verify_admin none dummy_hexdigest 0
         (some "default_password_change_me")).2 = AdminResp.success token ∧
       token.length = 32) :=
  ⟨by decide, by decide,
   (verify_admin_spec dummy_hexdigest 0 (some "default_password_change_me")
       (fun _ => rfl)).2.1 (by decide) (by decide)⟩
